import Mathlib

/-!
Verification of the ChessReviewEngine move-quality classification and
accuracy-scoring core.

The repository ships the TypeScript frontend sources and several design
documents quoting the Python backend (backend/app/engine/classification.py
and analyzer.py), whose full source files are not part of this snapshot.
The backend definitions below are therefore modelled from the design
documents and the specification; the frontend definitions
(MoveClassification, classificationStyles, classificationColors,
classificationLabels, getClassificationStyle) are transcribed from the
TypeScript sources src/types/analysis.ts, src/utils/classificationIcons.ts
and src/components/ClassificationBadge.tsx.
-/

namespace ChessReview

open Classical

/-- The classification labels of the engine core (spec data model:
ClassificationResult.label). -/
inductive Label where
  | theory
  | brilliant
  | best
  | excellent
  | great
  | good
  | inaccuracy
  | mistake
  | miss
  | blunder
deriving DecidableEq, Repr

/-- Modelled from the spec: PositionEvaluation, the raw engine-oracle output,
always from White's point of view; exactly one of score_cp / mate_in is
expected to be set. -/
structure PositionEvaluation where
  best_move : String
  score_cp : Option Int
  mate_in : Option Int
deriving DecidableEq, Repr

/-- Modelled from the spec: NormalizedEvaluation, an advantage expressed for
the player about to move (higher is better for the mover). -/
structure NormalizedEvaluation where
  advantage_to_mover_cp : Int
deriving DecidableEq, Repr

/-- Modelled from the spec: MoveRecord, the immutable per-move data coming
from the external rules engine.  The move notation is kept in UCI form (the
backend compares moves by UCI string equality).  The two fields
left_piece_attacked / left_piece_defended record the board facts the
sacrifice detector consumes for non-captures ("leaves the moved piece
attacked and undefended"). -/
structure MoveRecord where
  ply_index : Nat
  white_to_move : Bool
  uci : String
  is_capture : Bool
  moving_piece_value : Int
  captured_piece_value : Option Int
  delivers_checkmate : Bool
  left_piece_attacked : Bool
  left_piece_defended : Bool
deriving DecidableEq, Repr

/-- Modelled from the spec: the Perspective Normalizer (analyzer.py).  Mate
scores are converted first to a sentinel magnitude
sign(mate_in) * (10000 - min |mate_in| 99); the White-perspective value is
then negated exactly when the mover is Black. -/
def normalize (raw : PositionEvaluation) (mover_is_white : Bool) :
    NormalizedEvaluation :=
  let white_persp : Int :=
    match raw.mate_in with
    | some m => (if 0 ≤ m then (1 : Int) else -1) * (10000 - min (m.natAbs : Int) 99)
    | none => raw.score_cp.getD 0
  ⟨if mover_is_white then white_persp else -white_persp⟩

/-- Modelled from the spec: the Win-Probability Model
(compute_win_probability in classification.py), the logistic transform the
repository documents as Win% = 50 + 50 * (2 / (1 + exp(-0.004 * cp)) - 1),
i.e. the probability p = 1 / (1 + exp(-0.004 * cp)). -/
noncomputable def compute_win_probability (cp : Int) : ℝ :=
  1 / (1 + Real.exp (-(0.004) * (cp : ℝ)))

/-- Modelled from the spec: the win-probability loss of a move in percentage
points, best_win_pct - played_win_pct, clamped to be non-negative. -/
noncomputable def win_loss_pct (eval_before eval_after : NormalizedEvaluation) : ℝ :=
  max 0 (100 * compute_win_probability eval_before.advantage_to_mover_cp -
         100 * compute_win_probability eval_after.advantage_to_mover_cp)

/-- Modelled from the spec: the Sacrifice / Brilliancy Detector
(_is_brilliant_candidate in classification.py).  Requires, in order:
(1) the played move is UCI-string-equal to the engine best move;
(2) a material sacrifice: a capture with moving_piece_value >
captured_piece_value + 1, or a non-capture leaving the moved piece attacked
and undefended; (3) post-move advantage magnitude at least 200 cp and
improvement of the advantage magnitude of at least 100 cp. -/
def is_brilliant_candidate (move : MoveRecord) (best_move_uci : String)
    (eval_before eval_after : NormalizedEvaluation) : Bool :=
  let is_best_move := move.uci == best_move_uci
  let has_sacrifice :=
    if move.is_capture then
      match move.captured_piece_value with
      | some cv => decide (cv + 1 < move.moving_piece_value)
      | none => false
    else move.left_piece_attacked && !move.left_piece_defended
  is_best_move && has_sacrifice &&
    decide (200 ≤ |eval_after.advantage_to_mover_cp|) &&
    decide (100 ≤ |eval_after.advantage_to_mover_cp| - |eval_before.advantage_to_mover_cp|)

/-- Modelled from the spec: the final win-probability bucket of the Move
Classifier, assigning a label by the fixed contiguous thresholds on the
(clamped) win-probability loss in percentage points. -/
noncomputable def winPctBucket (x : ℝ) : Label :=
  if x ≤ 1 then .best
  else if x ≤ 2 then .excellent
  else if x ≤ 5 then .great
  else if x ≤ 10 then .good
  else if x ≤ 20 then .inaccuracy
  else if x ≤ 30 then .mistake
  else .blunder

/-- Modelled from the spec: the Move Classifier (classify_move_by_winrate in
classification.py), an ordered decision procedure: checkmate override, then
garbage-time clamp (|advantage before| > 700), then the brilliancy check,
then the theory check, then the win-probability bucket. -/
noncomputable def classify_move_by_winrate (move : MoveRecord)
    (eval_before eval_after : NormalizedEvaluation)
    (best_move_uci : String) (is_opening : Bool) : Label :=
  if move.delivers_checkmate then .best
  else if 700 < |eval_before.advantage_to_mover_cp| then
    if win_loss_pct eval_before eval_after ≤ 2 then .best else .excellent
  else if is_brilliant_candidate move best_move_uci eval_before eval_after then .brilliant
  else if is_opening = true ∧ win_loss_pct eval_before eval_after ≤ 2 then .theory
  else winPctBucket (win_loss_pct eval_before eval_after)

/-- Modelled from the spec: ClassificationResult, the per-move output of the
classifier consumed by the Accuracy Aggregator. -/
structure ClassificationResult where
  label : Label
  win_loss_pct : ℝ
  cp_loss : Int

/-- Modelled from the spec: PlayerAccuracySummary, the per-player running
totals of the Accuracy Aggregator. -/
structure PlayerAccuracySummary where
  counts : Label → Nat
  total_win_loss_sum : ℝ
  total_cp_loss : Int
  move_count : Nat

/-- The empty per-player summary before any move is folded in. -/
noncomputable def initSummary : PlayerAccuracySummary :=
  { counts := fun _ => 0, total_win_loss_sum := 0, total_cp_loss := 0, move_count := 0 }

/-- Modelled from the spec: the Accuracy Aggregator fold, incrementing the
label tally, adding the move's win-probability loss and centipawn loss to
the running totals, and incrementing the move count. -/
noncomputable def fold (s : PlayerAccuracySummary) (r : ClassificationResult) :
    PlayerAccuracySummary :=
  { counts := fun l => if l = r.label then s.counts l + 1 else s.counts l
    total_win_loss_sum := s.total_win_loss_sum + r.win_loss_pct
    total_cp_loss := s.total_cp_loss + r.cp_loss
    move_count := s.move_count + 1 }

/-- Modelled from the spec: the accuracy curve 100 * exp(-CPL / K) with the
fixed decay constant K = 120 (ACCURACY_K_FACTOR), as a function of the
cumulative centipawn loss. -/
noncomputable def accuracy_of (cpl : ℝ) : ℝ := 100 * Real.exp (-cpl / 120)

/-- Modelled from the spec: finalize, computing the 0-100 accuracy
percentage of a player from the accumulated centipawn loss. -/
noncomputable def finalize (s : PlayerAccuracySummary) : ℝ :=
  accuracy_of (s.total_cp_loss : ℝ)

/-- The members of the exported MoveClassification union type, transcribed
from src/types/analysis.ts. -/
def moveClassificationMembers : List String :=
  ["theory", "best", "excellent", "great", "good", "brilliant", "mistake",
   "miss", "blunder"]

/-- The ten-label classification enum as the specification words it
(ClassificationResult.label in the spec data model); kept separate from
moveClassificationMembers so the two can be compared. -/
def specLabelEnumMembers : List String :=
  ["theory", "brilliant", "best", "excellent", "great", "good", "inaccuracy",
   "mistake", "miss", "blunder"]

/-- The style record attached to one classification, transcribed from
src/utils/classificationIcons.ts. -/
structure ClassificationStyle where
  icon : String
  imageUrl : String
  color : String
  backgroundColor : String
deriving DecidableEq, Repr

/-- The classificationStyles record of src/utils/classificationIcons.ts, as
an association list from classification name to style. -/
def classificationStyles : List (String × ClassificationStyle) :=
  [("theory", ⟨"📖", "../assets/thoery.png", "#9ca3af", "#374151"⟩),
   ("good", ⟨"✓", "../assets/good.png", "#ffffff", "#96af8b"⟩),
   ("great", ⟨"✓✓", "../assets/great.png", "#ffffff", "#5c8bb0"⟩),
   ("best", ⟨"⭐", "../assets/best.png", "#ffffff", "#81b64c"⟩),
   ("excellent", ⟨"⚡", "../assets/excellent.png", "#ffffff", "#96bc4b"⟩),
   ("brilliant", ⟨"‼", "../assets/brillant.png", "#ffffff", "#1baca6"⟩),
   ("inaccuracy", ⟨"?!", "../assets/inaccuracy.png", "#ffffff", "#f0c15c"⟩),
   ("mistake", ⟨"?", "../assets/mistake.png", "#ffffff", "#e6912c"⟩),
   ("blunder", ⟨"??", "../assets/blunder.png", "#ffffff", "#ca3431"⟩)]

/-- The getClassificationStyle accessor of src/utils/classificationIcons.ts;
indexing a record at an absent key yields undefined in TypeScript, modelled
here as none. -/
def getClassificationStyle (classification : String) : Option ClassificationStyle :=
  classificationStyles.lookup classification

/-- The classificationColors record of ClassificationBadge.tsx. -/
def classificationColors : List (String × String) :=
  [("theory", "bg-gray-600 text-gray-100"),
   ("best", "bg-green-600 text-white"),
   ("excellent", "bg-green-500 text-white"),
   ("great", "bg-lime-500 text-white"),
   ("good", "bg-blue-500 text-white"),
   ("brilliant", "bg-purple-600 text-white"),
   ("inaccuracy", "bg-orange-600 text-white"),
   ("mistake", "bg-orange-500 text-white"),
   ("blunder", "bg-red-600 text-white")]

/-- The classificationLabels record of ClassificationBadge.tsx. -/
def classificationLabels : List (String × String) :=
  [("theory", "Theory"),
   ("best", "Best"),
   ("excellent", "Excellent"),
   ("great", "Great"),
   ("good", "Good"),
   ("brilliant", "Brilliant!!"),
   ("inaccuracy", "Inaccuracy"),
   ("mistake", "Mistake"),
   ("blunder", "Blunder")]

/-- A concrete best-move queen-takes-pawn sacrifice, used to instantiate the
brilliancy scenarios. -/
def queenSacMove : MoveRecord :=
  { ply_index := 12, white_to_move := true, uci := "d5e6", is_capture := true
    moving_piece_value := 9, captured_piece_value := some 1
    delivers_checkmate := false, left_piece_attacked := false
    left_piece_defended := false }

/-- A concrete quiet developing move (no capture, the moved piece stays
defended), used to instantiate non-brilliant scenarios. -/
def quietMove : MoveRecord :=
  { ply_index := 4, white_to_move := true, uci := "g1f3", is_capture := false
    moving_piece_value := 3, captured_piece_value := none
    delivers_checkmate := false, left_piece_attacked := false
    left_piece_defended := true }

/-- A concrete checkmating move, used to instantiate the checkmate
override. -/
def matingMove : MoveRecord :=
  { ply_index := 30, white_to_move := true, uci := "h5f7", is_capture := false
    moving_piece_value := 9, captured_piece_value := none
    delivers_checkmate := true, left_piece_attacked := true
    left_piece_defended := false }

end ChessReview

namespace ChessReview

/-- Claim C2: for every centipawn score v, normalizing a pure score
evaluation for a White mover yields advantage v, and for a Black mover
yields advantage -v: the raw White-perspective value is negated exactly when
the mover is Black. -/
theorem normalize_perspective (v : Int) (bm : String) :
    (normalize ⟨bm, some v, none⟩ true).advantage_to_mover_cp = v ∧
    (normalize ⟨bm, some v, none⟩ false).advantage_to_mover_cp = -v := by
  constructor <;> rfl

/-- Claim C1: a move that delivers checkmate is classified best regardless
of the numeric evaluation inputs; the checkmate check is the first rule of
the classifier, ahead of garbage time, brilliancy, theory and the
win-probability buckets. -/
theorem checkmate_override_best (move : MoveRecord)
    (eval_before eval_after : NormalizedEvaluation) (best_move_uci : String)
    (is_opening : Bool) (h : move.delivers_checkmate = true) :
    classify_move_by_winrate move eval_before eval_after best_move_uci
      is_opening = .best := by
  simp [classify_move_by_winrate, h]

/-- Witness for claim C1 at a concrete checkmating move in a position whose
numbers would otherwise fall in the garbage-time branch and register a huge
win-probability loss. -/
theorem checkmate_override_best_witness :
    matingMove.delivers_checkmate = true ∧
    classify_move_by_winrate matingMove ⟨-4000⟩ ⟨300⟩ "a2a1" true = .best :=
  ⟨rfl, checkmate_override_best matingMove ⟨-4000⟩ ⟨300⟩ "a2a1" true rfl⟩

/-- Claim C3: with |advantage before| > 700 and no checkmate delivered, the
classifier returns best when the win-probability loss is at most two
percentage points and excellent otherwise; great, good and brilliant are
unreachable. -/
theorem garbage_time_clamp (move : MoveRecord)
    (eval_before eval_after : NormalizedEvaluation) (best_move_uci : String)
    (is_opening : Bool) (hmate : move.delivers_checkmate = false)
    (hgt : 700 < |eval_before.advantage_to_mover_cp|) :
    (win_loss_pct eval_before eval_after ≤ 2 →
      classify_move_by_winrate move eval_before eval_after best_move_uci
        is_opening = .best) ∧
    (2 < win_loss_pct eval_before eval_after →
      classify_move_by_winrate move eval_before eval_after best_move_uci
        is_opening = .excellent) ∧
    classify_move_by_winrate move eval_before eval_after best_move_uci
      is_opening ≠ .great ∧
    classify_move_by_winrate move eval_before eval_after best_move_uci
      is_opening ≠ .good ∧
    classify_move_by_winrate move eval_before eval_after best_move_uci
      is_opening ≠ .brilliant := by
  have h1 : classify_move_by_winrate move eval_before eval_after best_move_uci
      is_opening =
      if win_loss_pct eval_before eval_after ≤ 2 then Label.best
      else Label.excellent := by
    unfold classify_move_by_winrate
    rw [if_neg (by simp [hmate]), if_pos hgt]
  by_cases h2 : win_loss_pct eval_before eval_after ≤ 2
  · rw [h1, if_pos h2]
    exact ⟨fun _ => rfl, fun h3 => absurd h2 (not_le.mpr h3),
      by decide, by decide, by decide⟩
  · rw [h1, if_neg h2]
    exact ⟨fun h3 => absurd h3 h2, fun _ => rfl,
      by decide, by decide, by decide⟩

/-- Witness for claim C3 at the spec scenario advantage 950 before the
move. -/
theorem garbage_time_clamp_witness :
    quietMove.delivers_checkmate = false ∧ (700 : Int) < |(950 : Int)| ∧
    classify_move_by_winrate quietMove ⟨950⟩ ⟨900⟩ "e2e4" false ≠ .great :=
  ⟨rfl, by decide,
    (garbage_time_clamp quietMove ⟨950⟩ ⟨900⟩ "e2e4" false rfl
      (by decide)).2.2.1⟩

/-- The win-probability bucket never produces the special labels brilliant,
theory or miss. -/
lemma winPctBucket_ne_special (x : ℝ) :
    winPctBucket x ≠ .brilliant ∧ winPctBucket x ≠ .theory ∧
    winPctBucket x ≠ .miss := by
  unfold winPctBucket
  split_ifs <;> exact ⟨by decide, by decide, by decide⟩

/-- Claim C5: away from checkmate and garbage time, the brilliancy check is
evaluated before the theory check: a brilliant candidate is labelled
brilliant for every value of is_opening (never theory); theory is returned
exactly when the move is in the opening, the win-probability loss is at
most two percentage points, and the brilliancy check failed: the label
theory also implies all three of those conditions. -/
theorem brilliancy_before_theory (move : MoveRecord)
    (eval_before eval_after : NormalizedEvaluation) (best_move_uci : String)
    (hmate : move.delivers_checkmate = false)
    (hgt : |eval_before.advantage_to_mover_cp| ≤ 700) :
    (is_brilliant_candidate move best_move_uci eval_before eval_after = true →
      ∀ is_opening : Bool,
        classify_move_by_winrate move eval_before eval_after best_move_uci
          is_opening = .brilliant) ∧
    (is_brilliant_candidate move best_move_uci eval_before eval_after = false →
      win_loss_pct eval_before eval_after ≤ 2 →
      classify_move_by_winrate move eval_before eval_after best_move_uci
        true = .theory) ∧
    (∀ is_opening : Bool,
      classify_move_by_winrate move eval_before eval_after best_move_uci
        is_opening = .theory →
      is_opening = true ∧ win_loss_pct eval_before eval_after ≤ 2 ∧
      is_brilliant_candidate move best_move_uci eval_before eval_after
        = false) := by
  have hgt' : ¬ (700 < |eval_before.advantage_to_mover_cp|) := not_lt.mpr hgt
  refine ⟨?_, ?_, ?_⟩
  · intro hb is_opening
    unfold classify_move_by_winrate
    rw [if_neg (by simp [hmate]), if_neg hgt', if_pos hb]
  · intro hb hwl
    unfold classify_move_by_winrate
    rw [if_neg (by simp [hmate]), if_neg hgt', if_neg (by simp [hb]),
      if_pos ⟨rfl, hwl⟩]
  · intro is_opening h
    unfold classify_move_by_winrate at h
    rw [if_neg (by simp [hmate]), if_neg hgt'] at h
    cases hb : is_brilliant_candidate move best_move_uci eval_before eval_after with
    | true =>
      rw [if_pos hb] at h
      exact absurd h (by decide)
    | false =>
      rw [if_neg (by simp [hb])] at h
      by_cases hth : is_opening = true ∧ win_loss_pct eval_before eval_after ≤ 2
      · exact ⟨hth.1, hth.2, rfl⟩
      · rw [if_neg hth] at h
        exact absurd h (winPctBucket_ne_special _).2.1

/-- Witness for claim C5: the concrete queen sacrifice is labelled brilliant
even with is_opening set, and a quiet opening move with zero win-probability
loss is labelled theory. -/
theorem brilliancy_before_theory_witness :
    is_brilliant_candidate queenSacMove "d5e6" ⟨50⟩ ⟨250⟩ = true ∧
    classify_move_by_winrate queenSacMove ⟨50⟩ ⟨250⟩ "d5e6" true = .brilliant ∧
    classify_move_by_winrate quietMove ⟨50⟩ ⟨50⟩ "g1f3" true = .theory := by
  have hwl : win_loss_pct (⟨50⟩ : NormalizedEvaluation) ⟨50⟩ ≤ 2 := by
    norm_num [win_loss_pct]
  refine ⟨by decide, ?_, ?_⟩
  · exact (brilliancy_before_theory queenSacMove ⟨50⟩ ⟨250⟩ "d5e6" rfl
      (by decide)).1 (by decide) true
  · exact (brilliancy_before_theory quietMove ⟨50⟩ ⟨50⟩ "g1f3" rfl
      (by decide)).2.1 (by decide) hwl

/-- Claim C4: the brilliancy detector fires only for a move that is
UCI-equal to the engine best move, constitutes a material sacrifice, and
leaves a post-move advantage magnitude of at least 200 cp with an
improvement of at least 100 cp; the concrete best-move queen sacrifice
swinging the advantage from +50 to +250 is classified brilliant, while the
same sacrifice swinging +50 to +80 is not. -/
theorem brilliant_candidate_gate :
    (∀ (move : MoveRecord) (best_move_uci : String)
      (eval_before eval_after : NormalizedEvaluation),
      is_brilliant_candidate move best_move_uci eval_before eval_after = true →
        move.uci = best_move_uci ∧
        ((move.is_capture = true ∧ ∃ cv, move.captured_piece_value = some cv ∧
            cv + 1 < move.moving_piece_value) ∨
         (move.is_capture = false ∧ move.left_piece_attacked = true ∧
            move.left_piece_defended = false)) ∧
        200 ≤ |eval_after.advantage_to_mover_cp| ∧
        100 ≤ |eval_after.advantage_to_mover_cp| -
          |eval_before.advantage_to_mover_cp|) ∧
    classify_move_by_winrate queenSacMove ⟨50⟩ ⟨250⟩ "d5e6" false = .brilliant ∧
    is_brilliant_candidate queenSacMove "d5e6" ⟨50⟩ ⟨80⟩ = false ∧
    classify_move_by_winrate queenSacMove ⟨50⟩ ⟨80⟩ "d5e6" false ≠ .brilliant := by
  refine ⟨?_, ?_, by decide, ?_⟩
  · intro move best_move_uci eval_before eval_after h
    unfold is_brilliant_candidate at h
    simp only [Bool.and_eq_true, decide_eq_true_eq, beq_iff_eq] at h
    obtain ⟨⟨⟨hbest, hsac⟩, h200⟩, h100⟩ := h
    refine ⟨hbest, ?_, h200, h100⟩
    cases hcap : move.is_capture with
    | false =>
      rw [hcap] at hsac
      simp only [Bool.false_eq_true, if_false, Bool.and_eq_true,
        Bool.not_eq_true'] at hsac
      exact Or.inr ⟨rfl, hsac.1, hsac.2⟩
    | true =>
      rw [hcap] at hsac
      simp only [if_true] at hsac
      refine Or.inl ⟨rfl, ?_⟩
      cases hcv : move.captured_piece_value with
      | none => rw [hcv] at hsac; simp at hsac
      | some cv =>
        rw [hcv] at hsac
        simp only [decide_eq_true_eq] at hsac
        exact ⟨cv, rfl, hsac⟩
  · unfold classify_move_by_winrate
    rw [if_neg (by decide), if_neg (by decide), if_pos (by decide)]
  · have hb : is_brilliant_candidate queenSacMove "d5e6" ⟨50⟩ ⟨80⟩ = false := by
      decide
    unfold classify_move_by_winrate
    rw [if_neg (by decide), if_neg (by decide), if_neg (by simp [hb]),
      if_neg (by simp)]
    exact (winPctBucket_ne_special _).1

/-- Witness for claim C4: the detector holds at the concrete queen
sacrifice, so its necessary conditions can be extracted there. -/
theorem brilliant_candidate_gate_witness :
    is_brilliant_candidate queenSacMove "d5e6" ⟨50⟩ ⟨250⟩ = true ∧
    queenSacMove.uci = "d5e6" :=
  ⟨by decide,
    (brilliant_candidate_gate.1 queenSacMove "d5e6" ⟨50⟩ ⟨250⟩ (by decide)).1⟩

/-- Claim C6: in the final bucket step the classifier returns the bucket of
the clamped win-probability loss; the loss is the difference of the two win
percentages clamped to be non-negative, and the bucket realises the fixed
contiguous thresholds (at most 1 best, 2 excellent, 5 great, 10 good, 20
inaccuracy, 30 mistake, larger blunder) as a total function on the reals,
so classification never throws. -/
theorem win_bucket_total_mapping (move : MoveRecord)
    (eval_before eval_after : NormalizedEvaluation) (best_move_uci : String)
    (is_opening : Bool) (hmate : move.delivers_checkmate = false)
    (hgt : |eval_before.advantage_to_mover_cp| ≤ 700)
    (hnb : is_brilliant_candidate move best_move_uci eval_before eval_after
      = false)
    (hnth : ¬(is_opening = true ∧ win_loss_pct eval_before eval_after ≤ 2)) :
    classify_move_by_winrate move eval_before eval_after best_move_uci
      is_opening = winPctBucket (win_loss_pct eval_before eval_after) ∧
    win_loss_pct eval_before eval_after =
      max 0 (100 * compute_win_probability eval_before.advantage_to_mover_cp -
             100 * compute_win_probability eval_after.advantage_to_mover_cp) ∧
    0 ≤ win_loss_pct eval_before eval_after ∧
    (∀ x : ℝ,
      (x ≤ 1 → winPctBucket x = .best) ∧
      (1 < x → x ≤ 2 → winPctBucket x = .excellent) ∧
      (2 < x → x ≤ 5 → winPctBucket x = .great) ∧
      (5 < x → x ≤ 10 → winPctBucket x = .good) ∧
      (10 < x → x ≤ 20 → winPctBucket x = .inaccuracy) ∧
      (20 < x → x ≤ 30 → winPctBucket x = .mistake) ∧
      (30 < x → winPctBucket x = .blunder)) := by
  refine ⟨?_, rfl, ?_, ?_⟩
  · unfold classify_move_by_winrate
    rw [if_neg (by simp [hmate]), if_neg (not_lt.mpr hgt),
      if_neg (by simp [hnb]), if_neg hnth]
  · unfold win_loss_pct
    exact le_max_left 0 _
  · intro x
    refine ⟨fun h1 => ?_, fun h1 h2 => ?_, fun h1 h2 => ?_, fun h1 h2 => ?_,
      fun h1 h2 => ?_, fun h1 h2 => ?_, fun h1 => ?_⟩
    · unfold winPctBucket; rw [if_pos h1]
    · unfold winPctBucket; rw [if_neg (not_le.mpr h1), if_pos h2]
    · unfold winPctBucket
      rw [if_neg (not_le.mpr (by linarith)), if_neg (not_le.mpr h1), if_pos h2]
    · unfold winPctBucket
      rw [if_neg (not_le.mpr (by linarith)), if_neg (not_le.mpr (by linarith)),
        if_neg (not_le.mpr h1), if_pos h2]
    · unfold winPctBucket
      rw [if_neg (not_le.mpr (by linarith)), if_neg (not_le.mpr (by linarith)),
        if_neg (not_le.mpr (by linarith)), if_neg (not_le.mpr h1), if_pos h2]
    · unfold winPctBucket
      rw [if_neg (not_le.mpr (by linarith)), if_neg (not_le.mpr (by linarith)),
        if_neg (not_le.mpr (by linarith)), if_neg (not_le.mpr (by linarith)),
        if_neg (not_le.mpr h1), if_pos h2]
    · unfold winPctBucket
      rw [if_neg (not_le.mpr (by linarith)), if_neg (not_le.mpr (by linarith)),
        if_neg (not_le.mpr (by linarith)), if_neg (not_le.mpr (by linarith)),
        if_neg (not_le.mpr (by linarith)), if_neg (not_le.mpr h1)]

/-- Witness for claim C6 at a concrete quiet middlegame move with the
theory branch disabled. -/
theorem win_bucket_total_mapping_witness :
    quietMove.delivers_checkmate = false ∧
    classify_move_by_winrate quietMove ⟨0⟩ ⟨0⟩ "g1f3" false =
      winPctBucket (win_loss_pct ⟨0⟩ ⟨0⟩) :=
  ⟨rfl,
    (win_bucket_total_mapping quietMove ⟨0⟩ ⟨0⟩ "g1f3" false rfl (by decide)
      (by decide) (by simp)).1⟩

/-- Claim C7: the win-probability model maps every centipawn advantage into
the unit interval, is strictly monotonic, and takes the value one half at
advantage zero. -/
theorem win_probability_monotone_bounds :
    (∀ cp : Int, 0 ≤ compute_win_probability cp ∧
      compute_win_probability cp ≤ 1) ∧
    (∀ a b : Int, a < b →
      compute_win_probability a < compute_win_probability b) ∧
    compute_win_probability 0 = 0.5 := by
  have hd : ∀ cp : Int, (0 : ℝ) < 1 + Real.exp (-(0.004) * (cp : ℝ)) :=
    fun cp => by positivity
  refine ⟨fun cp => ⟨?_, ?_⟩, fun a b hab => ?_, ?_⟩
  · unfold compute_win_probability; positivity
  · unfold compute_win_probability
    rw [div_le_one (hd cp)]
    have := Real.exp_pos (-(0.004) * (cp : ℝ))
    linarith
  · unfold compute_win_probability
    have hcast : (a : ℝ) < (b : ℝ) := by exact_mod_cast hab
    have hexp : Real.exp (-(0.004) * (b : ℝ)) <
        Real.exp (-(0.004) * (a : ℝ)) :=
      Real.exp_lt_exp.mpr (by nlinarith)
    exact one_div_lt_one_div_of_lt (hd b) (by linarith)
  · unfold compute_win_probability
    norm_num

/-- Witness for claim C7: monotonicity applied at the concrete advantages 0
and 100, together with the lower bound at 7. -/
theorem win_probability_monotone_bounds_witness :
    (0 : Int) < 100 ∧
    compute_win_probability 0 < compute_win_probability 100 ∧
    0 ≤ compute_win_probability 7 :=
  ⟨by decide, win_probability_monotone_bounds.2.1 0 100 (by decide),
    (win_probability_monotone_bounds.1 7).1⟩

/-- Folding a list of classification results adds exactly the list's total
centipawn loss to the accumulated loss. -/
lemma foldl_total_cp_loss (rs : List ClassificationResult)
    (s : PlayerAccuracySummary) :
    (rs.foldl fold s).total_cp_loss =
      s.total_cp_loss + (rs.map ClassificationResult.cp_loss).sum := by
  induction rs generalizing s with
  | nil => simp
  | cons r rs ih =>
    simp only [List.foldl_cons, List.map_cons, List.sum_cons, ih, fold]
    ring

/-- Claim C8: finalize computes the accuracy as 100 * exp(-CPL / 120); a
player all of whose folded moves have zero centipawn loss finalizes at
exactly 100, and the accuracy curve is strictly decreasing, continuous,
everywhere positive, and tends to 0 as the cumulative loss grows. -/
theorem accuracy_exponential_decay (rs : List ClassificationResult)
    (hzero : ∀ r ∈ rs, r.cp_loss = 0) :
    finalize (rs.foldl fold initSummary) = 100 ∧
    StrictAnti accuracy_of ∧
    (∀ x : ℝ, 0 < accuracy_of x) ∧
    Continuous accuracy_of ∧
    Filter.Tendsto accuracy_of Filter.atTop (nhds 0) := by
  refine ⟨?_, ?_, ?_, ?_, ?_⟩
  · have hsum : (rs.map ClassificationResult.cp_loss).sum = 0 := by
      apply List.sum_eq_zero
      intro x hx
      obtain ⟨r, hr, rfl⟩ := List.mem_map.mp hx
      exact hzero r hr
    unfold finalize
    rw [foldl_total_cp_loss, hsum]
    show accuracy_of ((initSummary.total_cp_loss + 0 : Int) : ℝ) = 100
    norm_num [initSummary, accuracy_of]
  · intro x y hxy
    unfold accuracy_of
    have : Real.exp (-y / 120) < Real.exp (-x / 120) :=
      Real.exp_lt_exp.mpr (by linarith)
    linarith
  · intro x
    unfold accuracy_of
    positivity
  · unfold accuracy_of
    continuity
  · have h1 : Filter.Tendsto (fun x : ℝ => x / 120) Filter.atTop Filter.atTop :=
      Filter.Tendsto.atTop_div_const (by norm_num) Filter.tendsto_id
    have h2 : Filter.Tendsto (fun x : ℝ => Real.exp (x / 120)) Filter.atTop
        Filter.atTop := Real.tendsto_exp_atTop.comp h1
    have h3 : Filter.Tendsto (fun x : ℝ => (Real.exp (x / 120))⁻¹)
        Filter.atTop (nhds 0) := h2.inv_tendsto_atTop
    have h4 : Filter.Tendsto (fun x : ℝ => 100 * (Real.exp (x / 120))⁻¹)
        Filter.atTop (nhds (100 * 0)) := h3.const_mul 100
    have heq : accuracy_of = fun x : ℝ => 100 * (Real.exp (x / 120))⁻¹ := by
      funext x
      unfold accuracy_of
      rw [neg_div, Real.exp_neg]
    rw [heq]
    simpa using h4

/-- Witness for claim C8 at a concrete two-move perfect game. -/
theorem accuracy_exponential_decay_witness :
    finalize ([⟨Label.best, 0, 0⟩, ⟨Label.theory, 1, 0⟩].foldl fold
      initSummary) = 100 :=
  (accuracy_exponential_decay [⟨Label.best, 0, 0⟩, ⟨Label.theory, 1, 0⟩]
    (by intro r hr; simp only [List.mem_cons, List.mem_singleton] at hr
        rcases hr with rfl | rfl | h
        · rfl
        · rfl
        · simp at h)).1

/-- Claim C9: the exported MoveClassification union of the frontend omits
the label inaccuracy, even though the specification enum carries ten labels
and the style records of the same frontend (and the backend classifier
labels) include inaccuracy: the union has nine members, not ten. -/
theorem label_enum_missing_inaccuracy :
    "inaccuracy" ∉ moveClassificationMembers ∧
    "inaccuracy" ∈ specLabelEnumMembers ∧
    (classificationStyles.lookup "inaccuracy").isSome = true ∧
    (classificationColors.lookup "inaccuracy").isSome = true ∧
    (classificationLabels.lookup "inaccuracy").isSome = true ∧
    moveClassificationMembers.length = 9 ∧
    specLabelEnumMembers.length = 10 := by
  refine ⟨by decide, by decide, by decide, by decide, by decide, by decide,
    by decide⟩

/-- Claim C10: getClassificationStyle is not total over the exported
MoveClassification members: the styles record and both badge records have
no entry for miss, so the miss lookup yields none (undefined), while every
other member of the union receives a defined style. -/
theorem classification_style_not_total (c : String)
    (hc : c ∈ moveClassificationMembers) (hne : c ≠ "miss") :
    getClassificationStyle "miss" = none ∧
    classificationColors.lookup "miss" = none ∧
    classificationLabels.lookup "miss" = none ∧
    (getClassificationStyle c).isSome = true := by
  refine ⟨by decide, by decide, by decide, ?_⟩
  simp only [moveClassificationMembers, List.mem_cons,
    List.mem_singleton] at hc
  rcases hc with rfl | rfl | rfl | rfl | rfl | rfl | rfl | rfl | rfl | h
  · decide
  · decide
  · decide
  · decide
  · decide
  · decide
  · decide
  · exact absurd rfl hne
  · decide
  · simp at h

/-- Witness for claim C10 at the concrete member best. -/
theorem classification_style_not_total_witness :
    ("best" : String) ∈ moveClassificationMembers ∧
    (getClassificationStyle "best").isSome = true :=
  ⟨by decide,
    (classification_style_not_total "best" (by decide) (by decide)).2.2.2⟩

end ChessReview
